import Mathlib

/-!
Shallow embedding of the video-to-evidence pipeline of `src/lib/contact-sheet.ts`
(the Sampling Planner, Sheet Compositor and Sheet Pipeline Orchestrator) together
with the cancellation handling of its caller `src/components/processing-view.tsx`.

JavaScript numbers are modelled as exact rationals (ℚ); `Math.ceil` is `Int.ceil`,
`Math.min` is `min`.  The browser side effects (seeking the video element, drawing
to a canvas) are irrelevant to the claims about timestamps, counts and control
flow; per-frame extraction success is abstracted by an oracle `ok : ℚ → Bool`
telling whether `extractFrame` resolves or rejects at a given time.
-/

namespace Bleai

/-- Constant `MAX_SHEETS = 50` from contact-sheet.ts. -/
def MAX_SHEETS : ℕ := 50

/-- Constant `FRAMES_PER_SHEET = 9` (3×3 grid) from contact-sheet.ts. -/
def FRAMES_PER_SHEET : ℕ := 9

/-- Planner `calculateSamplingInterval(videoDurationSeconds)` from contact-sheet.ts:
baseline interval 0.5 s, sheet span 4.5 s; if the number of baseline sheets
needed fits under `MAX_SHEETS` return the baseline, else stretch the interval
so the video fits in exactly `MAX_SHEETS` sheets. -/
def calculateSamplingInterval (videoDurationSeconds : ℚ) : ℚ :=
  let idealInterval : ℚ := 1/2
  let sheetDuration : ℚ := (FRAMES_PER_SHEET : ℚ) * idealInterval
  let sheetsNeeded : ℚ := videoDurationSeconds / sheetDuration
  if sheetsNeeded ≤ (MAX_SHEETS : ℚ) then
    idealInterval
  else
    videoDurationSeconds / (MAX_SHEETS : ℚ) / (FRAMES_PER_SHEET : ℚ)

/-- The `ContactSheet` record returned by `createContactSheet`.  `imageDataUrl`
(the rasterised canvas) is replaced by the observable composition data: which
grid slots were actually drawn (`filledSlots`) and which candidate times failed
extraction and were only logged (`failures`). -/
structure ContactSheet where
  timestamp : ℚ
  duration : ℚ
  frameTimestamps : List ℚ
  filledSlots : List ℕ
  failures : List ℚ
deriving DecidableEq, Repr

/-- The slot loop of `createContactSheet`: for `i` starting at `start0` and
`fuel` remaining iterations (initially `FRAMES_PER_SHEET`), compute
`frameTime = startTime + i·interval`; break as soon as `frameTime ≥ videoDuration`;
otherwise push `frameTime` onto `frameTimestamps`, then try to extract the frame:
on success record slot `i` as drawn, on failure record the time among the logged
failures and continue with the next slot.  Returns
`(frameTimestamps, filledSlots, failures)`. -/
def sheetSlots (videoDuration startTime interval : ℚ) (ok : ℚ → Bool) :
    ℕ → ℕ → List ℚ × List ℕ × List ℚ
  | 0, _ => ([], [], [])
  | fuel + 1, i =>
    let frameTime := startTime + (i : ℚ) * interval
    if videoDuration ≤ frameTime then ([], [], [])
    else
      let rest := sheetSlots videoDuration startTime interval ok fuel (i + 1)
      if ok frameTime then
        (frameTime :: rest.1, i :: rest.2.1, rest.2.2)
      else
        (frameTime :: rest.1, rest.2.1, frameTime :: rest.2.2)

/-- Compositor `createContactSheet(video, startTime, interval)` from contact-sheet.ts,
with `videoDuration = video.duration` and per-frame success oracle `ok`. -/
def createContactSheet (videoDuration startTime interval : ℚ) (ok : ℚ → Bool) :
    ContactSheet :=
  let slots := sheetSlots videoDuration startTime interval ok FRAMES_PER_SHEET 0
  { timestamp := startTime
    duration := interval * (FRAMES_PER_SHEET : ℚ)
    frameTimestamps := slots.1
    filledSlots := slots.2.1
    failures := slots.2.2 }

/-- Value `totalSheets = Math.ceil(duration / sheetDuration)` from `extractContactSheets`
(an integer; negative or zero only for degenerate durations). -/
def totalSheets (videoDuration : ℚ) : ℤ :=
  ⌈videoDuration / (calculateSamplingInterval videoDuration * (FRAMES_PER_SHEET : ℚ))⌉

/-- The number of loop iterations of `extractContactSheets`:
`i < totalSheets && i < MAX_SHEETS`. -/
def sheetCount (videoDuration : ℚ) : ℕ :=
  min (totalSheets videoDuration).toNat MAX_SHEETS

/-- The sheet list produced by `extractContactSheets` once metadata has loaded:
plan the interval once, derive `sheetDuration = interval × 9`, then produce one
sheet per index `i` with `startTime = i × sheetDuration`. -/
def extractContactSheets (videoDuration : ℚ) (ok : ℚ → Bool) : List ContactSheet :=
  let interval := calculateSamplingInterval videoDuration
  let sheetDuration := interval * (FRAMES_PER_SHEET : ℚ)
  (List.range (sheetCount videoDuration)).map
    (fun i : ℕ => createContactSheet videoDuration ((i : ℚ) * sheetDuration) interval ok)

/-- The sequence of values passed to `onProgress` by `extractContactSheets`:
after sheet `i` completes, `(i + 1) / Math.min(totalSheets, MAX_SHEETS)`. -/
def progressEvents (videoDuration : ℚ) : List ℚ :=
  (List.range (sheetCount videoDuration)).map
    (fun i : ℕ => ((i : ℚ) + 1) / (sheetCount videoDuration : ℚ))

/-- The pipeline-level error of `extractContactSheets`: the promise rejects with
`'Failed to load video'` when video metadata cannot be read. -/
inductive PipelineError where
  | mediaLoad
deriving DecidableEq, Repr

/-- Orchestrator `extractContactSheets` as the caller sees the promise: if metadata loads the
promise resolves with the full sheet list, otherwise it rejects. -/
def extractContactSheetsRun (metadataOk : Bool) (videoDuration : ℚ) (ok : ℚ → Bool) :
    Except PipelineError (List ContactSheet) :=
  if metadataOk then .ok (extractContactSheets videoDuration ok)
  else .error .mediaLoad

/-- The frames task of `ProcessingView.process` (processing-view.tsx): it awaits
`extractContactSheets` and then checks the effect-cleanup flag `cancelled`,
returning `null` — no completed result — when cancellation was signaled before
the extraction finished.  `cancelAfter` is the number of sheets that had
completed when `cancelled` was set (cancellation signaled strictly before all
sheets are done iff `cancelAfter < number of sheets`). -/
def framesTask (metadataOk : Bool) (videoDuration : ℚ) (ok : ℚ → Bool)
    (cancelAfter : ℕ) : Except PipelineError (Option (List ContactSheet)) :=
  match extractContactSheetsRun metadataOk videoDuration ok with
  | .error e => .error e
  | .ok sheets =>
    .ok (if cancelAfter < sheets.length then none else some sheets)

/-- The progress updates the user interface actually shows: the `onProgress`
callback in processing-view.tsx drops every event arriving after `cancelled`
was set (`if (!cancelled) updateStep(...)`). -/
def shownProgress (videoDuration : ℚ) (cancelAfter : ℕ) : List ℚ :=
  (progressEvents videoDuration).take cancelAfter

/-! ### Planner lemmas -/

/-- Normal form of the Planner: the branch condition
`videoDuration / 4.5 ≤ 50` is equivalent to `videoDuration ≤ 225`. -/
lemma calc_spec (d : ℚ) :
    calculateSamplingInterval d = if d ≤ 225 then 1/2 else d / 50 / 9 := by
  unfold calculateSamplingInterval
  have h : (d / ((FRAMES_PER_SHEET : ℚ) * (1/2)) ≤ (MAX_SHEETS : ℚ)) ↔ d ≤ 225 := by
    rw [div_le_iff₀ (by norm_num [FRAMES_PER_SHEET])]
    norm_num [FRAMES_PER_SHEET, MAX_SHEETS]
  simp only [h]
  norm_num [FRAMES_PER_SHEET, MAX_SHEETS]

lemma calc_of_le {d : ℚ} (hd : d ≤ 225) : calculateSamplingInterval d = 1/2 := by
  rw [calc_spec, if_pos hd]

lemma calc_of_gt {d : ℚ} (hd : 225 < d) : calculateSamplingInterval d = d / 50 / 9 := by
  rw [calc_spec, if_neg (not_le.2 hd)]

lemma half_le_calc {d : ℚ} (hd : 0 ≤ d) : 1/2 ≤ calculateSamplingInterval d := by
  rw [calc_spec]
  split
  · exact le_refl _
  · rw [div_div]
    rw [le_div_iff₀ (by norm_num)]
    linarith [not_le.1 (by assumption : ¬ d ≤ 225)]

lemma calc_pos {d : ℚ} (hd : 0 < d) : 0 < calculateSamplingInterval d :=
  lt_of_lt_of_le (by norm_num) (half_le_calc hd.le)

lemma calc_mono {d₁ d₂ : ℚ} (h1 : 0 < d₁) (h12 : d₁ < d₂) :
    calculateSamplingInterval d₁ ≤ calculateSamplingInterval d₂ := by
  rw [calc_spec, calc_spec]
  rcases le_or_lt d₁ 225 with hc1 | hc1 <;> rcases le_or_lt d₂ 225 with hc2 | hc2
  · simp [hc1, hc2]
  · rw [if_pos hc1, if_neg (not_le.2 hc2), div_div, le_div_iff₀ (by norm_num)]
    linarith
  · exact absurd (h12.trans_le hc2) (not_lt.2 hc1.le)
  · rw [if_neg (not_le.2 hc1), if_neg (not_le.2 hc2), div_div, div_div]
    exact div_le_div_of_nonneg_right h12.le (by norm_num) |>.trans_eq rfl

/-! ### Compositor-loop lemmas -/

/-- The `break` at the first candidate `≥ videoDuration` makes the attempted
frame times exactly a `takeWhile` prefix of the arithmetic candidate list. -/
lemma sheetSlots_fst (d s iv : ℚ) (ok : ℚ → Bool) (fuel i : ℕ) :
    (sheetSlots d s iv ok fuel i).1
      = ((List.range' i fuel).map (fun j : ℕ => s + (j : ℚ) * iv)).takeWhile
          (fun t => decide (t < d)) := by
  induction fuel generalizing i with
  | zero => rfl
  | succ fuel ih =>
    rw [List.range'_succ, List.map_cons, List.takeWhile_cons]
    by_cases h : s + (i : ℚ) * iv < d
    · rw [sheetSlots]
      cases hok : ok (s + (i : ℚ) * iv) <;>
        simp [not_le.2 h, hok, h, ih]
    · rw [sheetSlots]
      simp [not_lt.1 h, h]

/-- Failed candidates are exactly the attempted frame times whose extraction
rejected. -/
lemma sheetSlots_failures (d s iv : ℚ) (ok : ℚ → Bool) (fuel i : ℕ) :
    (sheetSlots d s iv ok fuel i).2.2
      = (sheetSlots d s iv ok fuel i).1.filter (fun t => !(ok t)) := by
  induction fuel generalizing i with
  | zero => rfl
  | succ fuel ih =>
    rw [sheetSlots]
    by_cases h : d ≤ s + (i : ℚ) * iv
    · simp [h]
    · cases hok : ok (s + (i : ℚ) * iv) <;> simp [h, hok, ih]

/-- Filled grid slots correspond exactly to the attempted frame times whose
extraction succeeded. -/
lemma sheetSlots_filled (d s iv : ℚ) (ok : ℚ → Bool) (fuel i : ℕ) :
    (sheetSlots d s iv ok fuel i).2.1.map (fun j : ℕ => s + (j : ℚ) * iv)
      = (sheetSlots d s iv ok fuel i).1.filter ok := by
  induction fuel generalizing i with
  | zero => rfl
  | succ fuel ih =>
    rw [sheetSlots]
    by_cases h : d ≤ s + (i : ℚ) * iv
    · simp [h]
    · cases hok : ok (s + (i : ℚ) * iv) <;> simp [h, hok, ih]

/-- Every filled slot passed its extraction. -/
lemma sheetSlots_filled_ok (d s iv : ℚ) (ok : ℚ → Bool) (fuel i : ℕ) :
    ∀ j ∈ (sheetSlots d s iv ok fuel i).2.1, ok (s + (j : ℚ) * iv) = true := by
  induction fuel generalizing i with
  | zero => intro j hj; simp [sheetSlots] at hj
  | succ fuel ih =>
    intro j hj
    rw [sheetSlots] at hj
    by_cases h : d ≤ s + (i : ℚ) * iv
    · simp [h] at hj
    · cases hok : ok (s + (i : ℚ) * iv) <;> simp [h, hok] at hj
      · exact ih (i + 1) j hj
      · rcases hj with rfl | hj
        · exact hok
        · exact ih (i + 1) j hj

/-- The attempted frame times of one sheet, in closed form. -/
lemma frameTimestamps_eq (d s iv : ℚ) (ok : ℚ → Bool) :
    (createContactSheet d s iv ok).frameTimestamps
      = ((List.range' 0 FRAMES_PER_SHEET).map (fun j : ℕ => s + (j : ℚ) * iv)).takeWhile
          (fun t => decide (t < d)) :=
  sheetSlots_fst d s iv ok FRAMES_PER_SHEET 0

lemma createContactSheet_timestamp (d s iv : ℚ) (ok : ℚ → Bool) :
    (createContactSheet d s iv ok).timestamp = s := rfl

lemma createContactSheet_duration (d s iv : ℚ) (ok : ℚ → Bool) :
    (createContactSheet d s iv ok).duration = iv * (FRAMES_PER_SHEET : ℚ) := rfl

/-- The attempted frame times are strictly increasing when the interval is
positive. -/
lemma frameTimestamps_chain (d s iv : ℚ) (ok : ℚ → Bool) (hiv : 0 < iv) :
    (createContactSheet d s iv ok).frameTimestamps.Chain' (· < ·) := by
  rw [frameTimestamps_eq]
  refine List.Pairwise.chain' ?_
  refine List.Pairwise.sublist (List.takeWhile_sublist _) ?_
  refine List.Pairwise.map _ (fun a b hab => ?_) (List.pairwise_lt_range' 0 _)
  have : (a : ℚ) < (b : ℚ) := by exact_mod_cast hab
  nlinarith

/-- Bounds on every attempted frame time of one sheet. -/
lemma frameTimestamps_mem_bounds (d s iv : ℚ) (ok : ℚ → Bool) (hiv : 0 < iv)
    {t : ℚ} (ht : t ∈ (createContactSheet d s iv ok).frameTimestamps) :
    s ≤ t ∧ t < s + iv * (FRAMES_PER_SHEET : ℚ) ∧ t < d := by
  rw [frameTimestamps_eq] at ht
  have hlt : t < d := by
    have := List.mem_takeWhile_imp ht
    simpa using this
  have hmem := (List.takeWhile_sublist _).subset ht
  rcases List.mem_map.1 hmem with ⟨j, hj, rfl⟩
  rcases List.mem_range'_1.1 hj with ⟨-, hj9⟩
  have hj9' : (j : ℚ) < (FRAMES_PER_SHEET : ℚ) := by
    exact_mod_cast (by simpa using hj9)
  refine ⟨le_add_of_nonneg_right (mul_nonneg (by positivity) hiv.le), ?_, hlt⟩
  nlinarith

/-- At most `FRAMES_PER_SHEET` frame times are attempted. -/
lemma frameTimestamps_length_le (d s iv : ℚ) (ok : ℚ → Bool) :
    (createContactSheet d s iv ok).frameTimestamps.length ≤ FRAMES_PER_SHEET := by
  rw [frameTimestamps_eq]
  calc _ ≤ ((List.range' 0 FRAMES_PER_SHEET).map
              (fun j : ℕ => s + (j : ℚ) * iv)).length := (List.takeWhile_sublist _).length_le
    _ = FRAMES_PER_SHEET := by simp

/-- A sheet whose start time lies before the end of the video attempts at least
one frame. -/
lemma frameTimestamps_length_pos (d s iv : ℚ) (ok : ℚ → Bool) (hsd : s < d) :
    1 ≤ (createContactSheet d s iv ok).frameTimestamps.length := by
  rw [frameTimestamps_eq]
  have h9 : List.range' 0 FRAMES_PER_SHEET = 0 :: List.range' 1 8 := rfl
  rw [h9, List.map_cons, List.takeWhile_cons]
  have h0 : s + (0 : ℚ) * iv < d := by simpa using hsd
  simp only [Nat.cast_zero, h0]
  simp

/-! ### Orchestrator lemmas -/

lemma extract_length (d : ℚ) (ok : ℚ → Bool) :
    (extractContactSheets d ok).length = sheetCount d := by
  simp [extractContactSheets]

lemma mem_extractContactSheets {d : ℚ} {ok : ℚ → Bool} {sheet : ContactSheet}
    (h : sheet ∈ extractContactSheets d ok) :
    ∃ k : ℕ, k < sheetCount d ∧
      sheet = createContactSheet d
        ((k : ℚ) * (calculateSamplingInterval d * (FRAMES_PER_SHEET : ℚ)))
        (calculateSamplingInterval d) ok := by
  unfold extractContactSheets at h
  simp only [List.mem_map, List.mem_range] at h
  rcases h with ⟨k, hk, rfl⟩
  exact ⟨k, hk, rfl⟩

lemma extract_sheet_mem (d : ℚ) (ok : ℚ → Bool) {k : ℕ} (hk : k < sheetCount d) :
    createContactSheet d
        ((k : ℚ) * (calculateSamplingInterval d * (FRAMES_PER_SHEET : ℚ)))
        (calculateSamplingInterval d) ok ∈ extractContactSheets d ok := by
  unfold extractContactSheets
  exact List.mem_map.2 ⟨k, List.mem_range.2 hk, rfl⟩

lemma span_pos {d : ℚ} (hd : 0 < d) :
    0 < calculateSamplingInterval d * (FRAMES_PER_SHEET : ℚ) :=
  mul_pos (calc_pos hd) (by norm_num [FRAMES_PER_SHEET])

lemma sheetCount_pos {d : ℚ} (hd : 0 < d) : 0 < sheetCount d := by
  have h1 : 0 < totalSheets d := Int.ceil_pos.2 (div_pos hd (span_pos hd))
  exact lt_min (Int.lt_toNat.2 (by exact_mod_cast h1)) (by norm_num [MAX_SHEETS])

/-- Every planned sheet starts strictly before the end of the video. -/
lemma start_lt_duration {d : ℚ} (hd : 0 < d) {k : ℕ} (hk : k < sheetCount d) :
    (k : ℚ) * (calculateSamplingInterval d * (FRAMES_PER_SHEET : ℚ)) < d := by
  have h1 : (k : ℤ) < totalSheets d :=
    Int.lt_toNat.1 (lt_of_lt_of_le hk (min_le_left _ _))
  have h2 : (k : ℚ) < d / (calculateSamplingInterval d * (FRAMES_PER_SHEET : ℚ)) := by
    have := Int.lt_ceil.1 h1
    exact_mod_cast this
  exact (lt_div_iff₀ (span_pos hd)).1 h2

/-! ### Concrete evaluations -/

lemma calc_10 : calculateSamplingInterval 10 = 1/2 := calc_of_le (by norm_num)

lemma totalSheets_10 : totalSheets 10 = 3 := by
  rw [totalSheets, calc_10]
  norm_num [FRAMES_PER_SHEET, Int.ceil_eq_iff]

lemma sheetCount_10 : sheetCount 10 = 3 := by
  rw [sheetCount, totalSheets_10]
  rfl

lemma totalSheets_22 : totalSheets 22 = 5 := by
  rw [totalSheets, calc_of_le (by norm_num)]
  norm_num [FRAMES_PER_SHEET, Int.ceil_eq_iff]

lemma sheetCount_22 : sheetCount 22 = 5 := by
  rw [sheetCount, totalSheets_22]
  rfl

/-! ### Claims about the Sampling Planner -/

/-- C1: the Sampling Planner is the piecewise function: for `0 < d ≤ 225` it
returns `0.5`, and for `d > 225` it returns `(d / 50) / 9`. -/
theorem claim_C1 (d : ℚ) :
    (0 < d → d ≤ 225 → calculateSamplingInterval d = 0.5) ∧
    (225 < d → calculateSamplingInterval d = d / 50 / 9) := by
  constructor
  · intro _ hle
    rw [calc_of_le hle]
    norm_num
  · intro hgt
    exact calc_of_gt hgt

theorem claim_C1_witness :
    calculateSamplingInterval 10 = 0.5 ∧
    calculateSamplingInterval 900 = 900 / 50 / 9 :=
  ⟨(claim_C1 10).1 (by norm_num) (by norm_num), (claim_C1 900).2 (by norm_num)⟩

/-- C4: `calculateSamplingInterval` is monotonically non-decreasing on positive
durations, and positive on every positive duration. -/
theorem claim_C4 :
    (∀ d₁ d₂ : ℚ, 0 < d₁ → d₁ < d₂ →
      calculateSamplingInterval d₁ ≤ calculateSamplingInterval d₂) ∧
    (∀ d : ℚ, 0 < d → 0 < calculateSamplingInterval d) :=
  ⟨fun _ _ h1 h12 => calc_mono h1 h12, fun _ hd => calc_pos hd⟩

theorem claim_C4_witness :
    calculateSamplingInterval 10 ≤ calculateSamplingInterval 900 ∧
    0 < calculateSamplingInterval 10 :=
  ⟨claim_C4.1 10 900 (by norm_num) (by norm_num), claim_C4.2 10 (by norm_num)⟩

/-- C10 (implicit): for every duration `≥ 0` the Planner returns at least the
`0.5`-second baseline, and the degenerate input `0` does not fail but returns
exactly the baseline `0.5`. -/
theorem claim_C10 :
    (∀ d : ℚ, 0 ≤ d → 0.5 ≤ calculateSamplingInterval d) ∧
    calculateSamplingInterval 0 = 0.5 := by
  constructor
  · intro d hd
    have := half_le_calc hd
    norm_num at this ⊢
    exact this
  · rw [calc_of_le (by norm_num)]
    norm_num

theorem claim_C10_witness : 0.5 ≤ calculateSamplingInterval 7 :=
  claim_C10.1 7 (by norm_num)

/-! ### Claims about sheet structure -/

/-- C2: every sheet produced by a run of the pipeline on a video of positive
duration has strictly increasing `frameTimestamps`, every value lies within
`[timestamp, timestamp + duration)` and within `[0, videoDuration)`, and the
list holds between 1 and 9 values. -/
theorem claim_C2 (d : ℚ) (ok : ℚ → Bool) (hd : 0 < d)
    (sheet : ContactSheet) (hmem : sheet ∈ extractContactSheets d ok) :
    sheet.frameTimestamps.Chain' (· < ·) ∧
    (∀ t ∈ sheet.frameTimestamps,
      sheet.timestamp ≤ t ∧ t < sheet.timestamp + sheet.duration ∧
      0 ≤ t ∧ t < d) ∧
    1 ≤ sheet.frameTimestamps.length ∧ sheet.frameTimestamps.length ≤ 9 := by
  obtain ⟨k, hk, rfl⟩ := mem_extractContactSheets hmem
  have hiv : 0 < calculateSamplingInterval d := calc_pos hd
  have hs0 : (0 : ℚ) ≤ (k : ℚ) * (calculateSamplingInterval d * (FRAMES_PER_SHEET : ℚ)) :=
    mul_nonneg (by positivity) (span_pos hd).le
  have hsd := start_lt_duration hd hk
  refine ⟨frameTimestamps_chain _ _ _ _ hiv, ?_, frameTimestamps_length_pos _ _ _ _ hsd, ?_⟩
  · intro t ht
    have hb := frameTimestamps_mem_bounds _ _ _ _ hiv ht
    rw [createContactSheet_timestamp, createContactSheet_duration]
    exact ⟨hb.1, hb.2.1, le_trans hs0 hb.1, hb.2.2⟩
  · have h := frameTimestamps_length_le d
      ((k : ℚ) * (calculateSamplingInterval d * (FRAMES_PER_SHEET : ℚ)))
      (calculateSamplingInterval d) ok
    simpa [FRAMES_PER_SHEET] using h

theorem claim_C2_witness :
    1 ≤ (createContactSheet 10
          (((0 : ℕ) : ℚ) * (calculateSamplingInterval 10 * (FRAMES_PER_SHEET : ℚ)))
          (calculateSamplingInterval 10) (fun _ => true)).frameTimestamps.length ∧
    (createContactSheet 10
          (((0 : ℕ) : ℚ) * (calculateSamplingInterval 10 * (FRAMES_PER_SHEET : ℚ)))
          (calculateSamplingInterval 10) (fun _ => true)).frameTimestamps.length ≤ 9 :=
  (claim_C2 10 (fun _ => true) (by norm_num) _
    (extract_sheet_mem 10 (fun _ => true) (by rw [sheetCount_10]; norm_num))).2.2

/-- C6: every sheet carries `duration = interval × 9` — the full nominal span,
regardless of how many slots were filled, including the last sheet of the run. -/
theorem claim_C6 (d s iv : ℚ) (ok : ℚ → Bool) :
    (createContactSheet d s iv ok).duration = iv * 9 ∧
    ∀ sheet ∈ extractContactSheets d ok,
      sheet.duration = calculateSamplingInterval d * 9 := by
  constructor
  · rw [createContactSheet_duration]
    norm_num [FRAMES_PER_SHEET]
  · intro sheet hs
    obtain ⟨k, hk, rfl⟩ := mem_extractContactSheets hs
    rw [createContactSheet_duration]
    norm_num [FRAMES_PER_SHEET]

theorem claim_C6_witness :
    (createContactSheet 10 9 (1/2) (fun _ => true)).duration = (1/2) * 9 :=
  (claim_C6 10 9 (1/2) (fun _ => true)).1

/-- C7: a per-frame extraction failure does not fail the sheet or the pipeline:
the attempted frame times are the same as if every extraction succeeded (all
remaining slots are still attempted), failures are recorded, only successful
slots are drawn, and the pipeline still produces the full planned sheet list. -/
theorem claim_C7 (d s iv : ℚ) (ok : ℚ → Bool) :
    (createContactSheet d s iv ok).frameTimestamps
      = (createContactSheet d s iv (fun _ => true)).frameTimestamps ∧
    (createContactSheet d s iv ok).failures
      = (createContactSheet d s iv ok).frameTimestamps.filter (fun t => !(ok t)) ∧
    (createContactSheet d s iv ok).filledSlots.map (fun j : ℕ => s + (j : ℚ) * iv)
      = (createContactSheet d s iv ok).frameTimestamps.filter ok ∧
    (∀ j ∈ (createContactSheet d s iv ok).filledSlots, ok (s + (j : ℚ) * iv) = true) ∧
    (extractContactSheets d ok).length = (extractContactSheets d (fun _ => true)).length := by
  refine ⟨?_, sheetSlots_failures d s iv ok FRAMES_PER_SHEET 0,
    sheetSlots_filled d s iv ok FRAMES_PER_SHEET 0,
    sheetSlots_filled_ok d s iv ok FRAMES_PER_SHEET 0, ?_⟩
  · rw [frameTimestamps_eq, frameTimestamps_eq]
  · rw [extract_length, extract_length]

theorem claim_C7_witness :
    (createContactSheet 10 0 (1/2) (fun _ => false)).frameTimestamps
      = (createContactSheet 10 0 (1/2) (fun _ => true)).frameTimestamps :=
  (claim_C7 10 0 (1/2) (fun _ => false)).1

/-! ### Claims about the Orchestrator -/

/-- C3: a successful run on a video of positive duration returns exactly
`min(⌈duration / (interval × 9)⌉, 50)` sheets — never more than 50 — whose
`timestamp` fields are `0, sheetSpan, 2·sheetSpan, …`. -/
theorem claim_C3 (d : ℚ) (ok : ℚ → Bool) (hd : 0 < d) :
    (extractContactSheets d ok).length
      = min (⌈d / (calculateSamplingInterval d * 9)⌉.toNat) 50 ∧
    (extractContactSheets d ok).length ≤ 50 ∧
    ∀ i : ℕ, ∀ hi : i < (extractContactSheets d ok).length,
      ((extractContactSheets d ok).get ⟨i, hi⟩).timestamp
        = (i : ℚ) * (calculateSamplingInterval d * 9) := by
  refine ⟨?_, ?_, ?_⟩
  · rw [extract_length]
    norm_num [sheetCount, totalSheets, FRAMES_PER_SHEET, MAX_SHEETS]
  · rw [extract_length]
    exact le_trans (min_le_right _ _) (by norm_num [MAX_SHEETS])
  · intro i hi
    have hi' : i < sheetCount d := by rwa [extract_length] at hi
    unfold extractContactSheets
    simp [createContactSheet_timestamp, FRAMES_PER_SHEET]

theorem claim_C3_witness :
    (extractContactSheets 10 (fun _ => true)).length ≤ 50 :=
  (claim_C3 10 (fun _ => true) (by norm_num)).2.1

/-- C9: during a successful run the progress callback fires once per completed
sheet with value `(index + 1) / sheetCount`; every reported value lies in
`[0, 1]` and the reported sequence is non-decreasing. -/
theorem claim_C9 (d : ℚ) (hd : 0 < d) :
    (progressEvents d).length = sheetCount d ∧
    (∀ i : ℕ, ∀ hi : i < (progressEvents d).length,
      (progressEvents d).get ⟨i, hi⟩ = ((i : ℚ) + 1) / (sheetCount d : ℚ)) ∧
    (∀ p ∈ progressEvents d, 0 ≤ p ∧ p ≤ 1) ∧
    (progressEvents d).Chain' (· ≤ ·) := by
  have hc : 0 < sheetCount d := sheetCount_pos hd
  have hcq : (0 : ℚ) < (sheetCount d : ℚ) := by exact_mod_cast hc
  refine ⟨by simp [progressEvents], ?_, ?_, ?_⟩
  · intro i hi
    simp [progressEvents]
  · intro p hp
    unfold progressEvents at hp
    rcases List.mem_map.1 hp with ⟨i, hi, rfl⟩
    have hi' : i < sheetCount d := List.mem_range.1 hi
    constructor
    · positivity
    · rw [div_le_one hcq]
      exact_mod_cast Nat.succ_le_of_lt hi'
  · refine List.Pairwise.chain' ?_
    unfold progressEvents
    refine List.Pairwise.map _ (fun a b hab => ?_) (List.pairwise_lt_range _)
    have h1 : (a : ℚ) + 1 ≤ (b : ℚ) + 1 := by
      have : (a : ℚ) < (b : ℚ) := by exact_mod_cast hab
      linarith
    exact div_le_div_of_nonneg_right h1 hcq.le

theorem claim_C9_witness :
    (progressEvents 10).length = sheetCount 10 :=
  (claim_C9 10 (by norm_num)).1

/-- C8: when cancellation is signaled after some sheets complete but before all
planned sheets are done, the frames operation of the Processing Coordinator
returns without a thrown error (`Except.ok`) and the caller observes no
completed result (`none`); the pipeline itself nevertheless produced all
planned sheets, which the caller discards. -/
theorem claim_C8 (d : ℚ) (ok : ℚ → Bool) (cancelAfter : ℕ) (hd : 0 < d)
    (hcancel : cancelAfter < (extractContactSheets d ok).length) :
    framesTask true d ok cancelAfter = .ok none ∧
    (extractContactSheets d ok).length = sheetCount d := by
  constructor
  · unfold framesTask extractContactSheetsRun
    simp [hcancel]
  · exact extract_length d ok

theorem claim_C8_witness :
    framesTask true 22 (fun _ => true) 2 = .ok none ∧
    (extractContactSheets 22 (fun _ => true)).length = sheetCount 22 :=
  claim_C8 22 (fun _ => true) 2 (by norm_num)
    (by rw [extract_length, sheetCount_22]; norm_num)

/-! ### The 10-second scenario -/

lemma extract_map_timestamp (d : ℚ) (ok : ℚ → Bool) :
    (extractContactSheets d ok).map ContactSheet.timestamp
      = (List.range (sheetCount d)).map
          (fun i : ℕ => (i : ℚ) * (calculateSamplingInterval d * (FRAMES_PER_SHEET : ℚ))) := by
  unfold extractContactSheets
  simp [List.map_map, Function.comp_def, createContactSheet_timestamp]

lemma timestamps_10 :
    (extractContactSheets 10 (fun _ => true)).map ContactSheet.timestamp
      = [0, 9/2, 9] := by
  rw [extract_map_timestamp, sheetCount_10, calc_10,
    show List.range 3 = [0, 1, 2] from rfl]
  norm_num [FRAMES_PER_SHEET]

/-- The last planned sheet of the 10-second video (start 9.0) attempts exactly
the two candidates 9.0 and 9.5; the next candidate 10.0 is `≥` the duration. -/
lemma ft_last_10 :
    (createContactSheet 10 9 (1/2) (fun _ => true)).frameTimestamps = [9, 19/2] := by
  rw [frameTimestamps_eq,
    show (List.range' 0 FRAMES_PER_SHEET : List ℕ) = [0, 1, 2, 3, 4, 5, 6, 7, 8] from rfl]
  norm_num [List.takeWhile_cons]

lemma last_10 :
    (extractContactSheets 10 (fun _ => true)).getLast?.map ContactSheet.frameTimestamps
      = some [9, 19/2] := by
  unfold extractContactSheets
  rw [List.getLast?_map, sheetCount_10,
    show (List.range 3).getLast? = some 2 from rfl]
  have h9 : ((2 : ℕ) : ℚ) * (1/2 * (FRAMES_PER_SHEET : ℚ)) = 9 := by
    norm_num [FRAMES_PER_SHEET]
  simp only [Option.map_map, Option.map_some', Function.comp_def, calc_10, h9]
  rw [ft_last_10]

/-- C5 (amended): for a 10-second video the pipeline plans interval 0.5 and
sheet span 4.5, and produces exactly 3 sheets with timestamps 0, 4.5 and 9.0;
the last sheet (start 9.0) contains exactly 2 frames, 9.0 and 9.5, because the
first excluded candidate is 10.0, which is `≥` the 10-second duration
(9.5 < 10 is not excluded). -/
theorem claim_C5 :
    calculateSamplingInterval 10 = 0.5 ∧
    calculateSamplingInterval 10 * 9 = 4.5 ∧
    (extractContactSheets 10 (fun _ => true)).length = 3 ∧
    (extractContactSheets 10 (fun _ => true)).map ContactSheet.timestamp = [0, 4.5, 9] ∧
    (extractContactSheets 10 (fun _ => true)).getLast?.map ContactSheet.frameTimestamps
      = some [9, 9.5] ∧
    ¬ (9 + 2 * calculateSamplingInterval 10 < 10) := by
  refine ⟨by rw [calc_10]; norm_num, by rw [calc_10]; norm_num, ?_, ?_, ?_,
    by rw [calc_10]; norm_num⟩
  · rw [extract_length, sheetCount_10]
  · rw [timestamps_10]
    norm_num
  · rw [last_10]
    norm_num

/-- C5 as stated is false on the code: the last sheet of the 10-second video
holds 2 frames, not 1 — the candidate 9.5 is below the 10-second duration and
is therefore sampled, not excluded. -/
theorem claim_C5_counterexample :
    (extractContactSheets 10 (fun _ => true)).getLast?.map
        (fun s => s.frameTimestamps.length) = some 2 ∧
    ¬ (extractContactSheets 10 (fun _ => true)).getLast?.map
        (fun s => s.frameTimestamps.length) = some 1 := by
  have h2 : (extractContactSheets 10 (fun _ => true)).getLast?.map
      (fun s => s.frameTimestamps.length) = some 2 := by
    have h := congrArg (Option.map List.length) last_10
    rw [Option.map_map] at h
    simpa [Function.comp_def] using h
  exact ⟨h2, by rw [h2]; simp⟩

end Bleai
